import Mathlib

/-!
Verification of the multi-channel notification dispatch subsystem of the
openIMIS notice module (src/notice/services.py and src/notice/gql_mutations.py).

Shallow embedding conventions:
  * External effects (the Django mail transport, the HTTP SMS gateway, the
    Notice database lookup, the Celery task submission) are passed in as
    oracles: a function or an `Except` value describing the outcome the
    outside world produces for the call.
  * Python exceptions are modelled with `Except String`: `Except.error m`
    is a raised exception whose rendered message is `m`.  The payload of a
    Django `ValidationError` is modelled by the message string it was
    constructed with.
  * Python dictionaries that the code iterates or extends are modelled as
    association lists in insertion order; truthiness of an optional string
    (`None` or `""` are falsy) is the `truthy` predicate below.
-/

/-- django.utils.html.escape on one character: it maps the five
HTML-special characters to entities and keeps every other character. -/
def escapeChar (c : Char) : String :=
  if c = '&' then "&amp;"
  else if c = '<' then "&lt;"
  else if c = '>' then "&gt;"
  else if c = Char.ofNat 34 then "&quot;"
  else if c = Char.ofNat 39 then "&#x27;"
  else String.mk [c]

/-- Character-by-character expansion used by `escape`. -/
def escapeList : List Char → List Char
  | [] => []
  | c :: cs => (escapeChar c).data ++ escapeList cs

/-- django.utils.html.escape: HTML-escape a string. -/
def escape (s : String) : String :=
  String.mk (escapeList s.data)

/-- Python str.lower modelled character by character (the priorities in
play are ASCII). -/
def pyLower (s : String) : String :=
  String.mk (s.data.map Char.toLower)

/-- Python str.upper modelled character by character. -/
def pyUpper (s : String) : String :=
  String.mk (s.data.map Char.toUpper)

/-- The priority_colors dict of EmailNotificationProvider.send
(services.py lines 82-88), in source order. -/
def priority_colors : List (String × String) :=
  [("high", "#e74c3c"),
   ("medium", "#f39c12"),
   ("low", "#27ae60"),
   ("urgent", "#c0392b"),
   ("normal", "#3498db")]

/-- priority_colors.get(key, the default color) for an already lower-cased key. -/
def priorityColorKey (key : String) : String :=
  (priority_colors.lookup key).getD "#3498db"

/-- priority_colors.get(priority.lower(), the default color)
(services.py line 90). -/
def priority_color (priority : String) : String :=
  priorityColorKey (pyLower priority)

/-- The literal text of html_template (services.py lines 47-79) before the
first placeholder. -/
def htmlPart0 : String :=
  "\n            <!doctype html>\n            <html>\n              <head>\n                <meta http-equiv=\"Content-Type\" content=\"text/html; charset=UTF-8\">\n                <title>Notice: "

/-- Template text between the title placeholder of the head and the title
placeholder of the body. -/
def htmlPart1 : String :=
  "</title>\n              </head>\n              <body style=\"font-family: Arial, sans-serif; line-height: 1.6; color: #333;\">\n                <div style=\"max-width: 600px; margin: 0 auto; padding: 20px; border: 1px solid #ddd; border-radius: 8px;\">\n                  <div style=\"background-color: #f8f9fa; padding: 15px; border-radius: 5px; margin-bottom: 20px;\">\n                    <h1 style=\"color: #2c3e50; margin: 0; font-size: 24px;\">ðŸ“¢ Notice</h1>\n                  </div>\n                  \n                  <div style=\"margin-bottom: 20px;\">\n                    <h2 style=\"color: #34495e; margin-bottom: 10px; font-size: 20px;\">"

/-- Template text between the body title placeholder and the first
priority-color placeholder. -/
def htmlPart2 : String :=
  "</h2>\n                    <div style=\"background-color: #ffffff; padding: 15px; border-left: 4px solid "

/-- Template text between the first priority-color placeholder and the
description placeholder. -/
def htmlPart3 : String :=
  "; margin-bottom: 15px;\">\n                      <p style=\"margin: 0; white-space: pre-wrap;\">"

/-- Template text between the description placeholder and the second
priority-color placeholder. -/
def htmlPart4 : String :=
  "</p>\n                    </div>\n                    <p style=\"margin: 0;\">\n                      <strong>Priority:</strong> \n                      <span style=\"background-color: "

/-- Template text between the second priority-color placeholder and the
priority placeholder. -/
def htmlPart5 : String :=
  "; color: white; padding: 4px 8px; border-radius: 4px; font-size: 12px; text-transform: uppercase;\">\n                        "

/-- Template text after the priority placeholder. -/
def htmlPart6 : String :=
  "\n                      </span>\n                    </p>\n                  </div>\n                  \n                  <div style=\"border-top: 1px solid #eee; padding-top: 15px; font-size: 12px; color: #666;\">\n                    <p style=\"margin: 0;\">This is an automated notification from OpenIMIS.</p>\n                  </div>\n                </div>\n              </body>\n            </html>\n            "

/-- html_template.format(...): the template with the four placeholders
substituted (the title and the priority color each occur twice). -/
def htmlTemplateFilled (title description priority priorityColor : String) : String :=
  htmlPart0 ++ title ++ htmlPart1 ++ title ++ htmlPart2 ++ priorityColor ++
    htmlPart3 ++ description ++ htmlPart4 ++ priorityColor ++ htmlPart5 ++
    priority ++ htmlPart6

/-- html_message of EmailNotificationProvider.send (services.py lines
93-98): the template filled with the escaped title, description and
priority and with the looked-up priority color. -/
def html_message (title description priority : String) : String :=
  htmlTemplateFilled (escape title) (escape description) (escape priority)
    (priority_color priority)

/-- The plaintext body of the email (services.py line 102). -/
def plain_message (title description priority : String) : String :=
  "Title: " ++ (title ++ ("\n\nDescription: " ++ (description ++ ("\n\nPriority: " ++ priority))))

/-- The email subject (services.py line 101). -/
def email_subject (title : String) : String :=
  "Notice: " ++ title

/-- The arguments of one django send_mail call (services.py lines 105-112). -/
structure EmailCall where
  subject : String
  message : String
  fromEmail : String
  recipients : List String
  htmlMessage : String

/-- EmailNotificationProvider.send (services.py lines 26-119).  `sendMail`
is the mail-transport oracle: the outcome django send_mail would produce
for the call.  Every exception of the try block, including the empty
recipient check, is caught at line 117 and re-raised as a ValidationError
prefixed with "Failed to send email: ". -/
def EmailNotificationProvider.send (sendMail : EmailCall → Except String Unit)
    (fromEmail : String) (recipients : List String)
    (title description priority : String) : Except String Bool :=
  if recipients.isEmpty then
    Except.error ("Failed to send email: " ++ "No valid recipients provided")
  else
    match sendMail
        { subject := email_subject title,
          message := plain_message title description priority,
          fromEmail := fromEmail,
          recipients := recipients,
          htmlMessage := html_message title description priority } with
    | Except.ok _ => Except.ok true
    | Except.error e => Except.error ("Failed to send email: " ++ e)

/-- Outcome of one HTTP POST to the SMS gateway for one recipient:
either the request (or the response parsing) raised, or a response with a
status code and the truthiness of the success flag of its JSON body
(a missing flag reads as false, services.py line 181). -/
inductive PostOutcome where
  | fail : PostOutcome
  | resp (statusCode : Nat) (successFlag : Bool) : PostOutcome
deriving Repr, DecidableEq

/-- A per-recipient attempt counts as a success exactly when the POST
returned HTTP 200 with a truthy success flag (services.py lines 178-182). -/
def postSucceeds : PostOutcome → Bool
  | PostOutcome.resp 200 flag => flag
  | _ => false

/-- The configuration state of SMSNotificationProvider (services.py lines
128-131): SMS_GATEWAY_URL and SMS_GATEWAY_API_KEY default to None,
SMS_SENDER_ID defaults to "OpenIMIS". -/
structure SMSConfig where
  gateway_url : Option String
  api_key : Option String
  sender_id : String
deriving Repr, DecidableEq

/-- Python truthiness of an optional string setting: None and the empty
string are falsy. -/
def truthy : Option String → Bool
  | none => false
  | some s => !s.isEmpty

/-- The JSON payload of one SMS gateway POST (services.py lines 164-169);
`toRecipient` and `fromSender` stand for the "to" and "from" keys. -/
structure SmsPayload where
  api_key : String
  toRecipient : String
  message : String
  fromSender : String
deriving Repr, DecidableEq

/-- The single short SMS text (services.py line 158): bracketed upper-cased
priority, the title, and the description cut to its first 100 characters
with an ellipsis appended exactly when it was longer. -/
def sms_message (title description priority : String) : String :=
  "[" ++ pyUpper priority ++ "] " ++ title ++ ": " ++
    String.mk (description.data.take 100) ++
    (if description.length > 100 then "..." else "")

/-- The payload posted for one recipient (services.py lines 164-169). -/
def sms_payload (cfg : SMSConfig) (recipient message : String) : SmsPayload :=
  { api_key := cfg.api_key.getD "",
    toRecipient := recipient,
    message := message,
    fromSender := cfg.sender_id }

/-- The success_count accumulated by the recipient loop (services.py lines
160-190): the number of recipients whose POST succeeded. -/
def sms_success_count (cfg : SMSConfig) (gateway : SmsPayload → PostOutcome)
    (recipients : List String) (title description priority : String) : Nat :=
  (recipients.filter (fun r =>
    postSucceeds (gateway (sms_payload cfg r (sms_message title description priority))))).length

/-- SMSNotificationProvider.send (services.py lines 133-200).  `gateway` is
the HTTP oracle giving each POSTed payload its outcome.  The configuration
check precedes the try block, so its error is not wrapped; the
zero-successes error raised at line 196 is caught by the except at line
198 and re-raised with the prefix "Failed to send SMS: ". -/
def SMSNotificationProvider.send (cfg : SMSConfig)
    (gateway : SmsPayload → PostOutcome) (recipients : List String)
    (title description priority : String) : Except String Bool :=
  if !truthy cfg.gateway_url || !truthy cfg.api_key then
    Except.error "SMS provider not configured"
  else if sms_success_count cfg gateway recipients title description priority > 0 then
    Except.ok true
  else
    Except.error ("Failed to send SMS: " ++ "Failed to send SMS to any recipient")

/-- One entry of the dict send_multi_channel returns for a channel
(services.py lines 270-272). -/
structure ChannelResult where
  success : Bool
  error : Option String
deriving Repr, DecidableEq

/-- The external world a NotificationService call runs against: the mail
transport, the resolved NOTICE_FROM_EMAIL setting, the SMS configuration
and the SMS gateway. -/
structure Env where
  sendMail : EmailCall → Except String Unit
  fromEmail : String
  smsConfig : SMSConfig
  gateway : SmsPayload → PostOutcome

/-- NotificationService.send_notification (services.py lines 214-240): the
provider registry is the fixed dict with keys "email" and "sms"; an
unknown key raises the unsupported-type ValidationError. -/
def NotificationService.send_notification (env : Env) (notification_type : String)
    (recipients : List String) (title description priority : String) :
    Except String Bool :=
  if notification_type = "email" then
    EmailNotificationProvider.send env.sendMail env.fromEmail recipients title description priority
  else if notification_type = "sms" then
    SMSNotificationProvider.send env.smsConfig env.gateway recipients title description priority
  else
    Except.error ("Unsupported notification type: " ++ notification_type)

/-- The try/except body of the send_multi_channel loop for one channel
(services.py lines 266-273): a normal return is recorded with error None,
a raise is recorded as success False with the rendered message. -/
def channelOutcome (env : Env) (channel : String) (recipients : List String)
    (title description priority : String) : ChannelResult :=
  match NotificationService.send_notification env channel recipients title description priority with
  | Except.ok b => { success := b, error := none }
  | Except.error e => { success := false, error := some e }

/-- NotificationService.send_multi_channel (services.py lines 242-275):
iterate the channel dict in order, silently skip channels with falsy
(empty) recipient lists, and record each attempted channel. -/
def NotificationService.send_multi_channel (env : Env)
    (channels : List (String × List String))
    (title description priority : String) : List (String × ChannelResult) :=
  channels.filterMap (fun entry =>
    if entry.2.isEmpty then none
    else some (entry.1, channelOutcome env entry.1 entry.2 title description priority))

/-- The contact fields of a health facility that the dispatch reads
(gql_mutations.py lines 59-65). -/
structure HealthFacility where
  email : Option String
  phone : Option String
deriving Repr, DecidableEq

/-- The fields of a Notice record read by the dispatch
(gql_mutations.py lines 51-84). -/
structure NoticeRec where
  title : String
  description : String
  priority : String
  health_facility : Option HealthFacility
deriving Repr, DecidableEq

/-- email_recipients (gql_mutations.py lines 58-60): the facility email,
when the facility exists and the field is truthy. -/
def email_recipients (n : NoticeRec) : List String :=
  match n.health_facility with
  | some hf => if truthy hf.email then [hf.email.getD ""] else []
  | none => []

/-- sms_recipients (gql_mutations.py lines 63-65): the facility phone,
when the facility exists and the field is truthy. -/
def sms_recipients (n : NoticeRec) : List String :=
  match n.health_facility with
  | some hf => if truthy hf.phone then [hf.phone.getD ""] else []
  | none => []

/-- The notification_types list after the falsy-default of
gql_mutations.py lines 68-69: an absent or empty list becomes email only. -/
def requested_types (notification_types : List String) : List String :=
  if notification_types.isEmpty then ["email"] else notification_types

/-- The channels dict built by _send_notice_notification_sync
(gql_mutations.py lines 67-75): a channel is added only when requested and
its recipient list is non-empty. -/
def notice_channels (n : NoticeRec) (notification_types : List String) :
    List (String × List String) :=
  (if (requested_types notification_types).contains "email"
      && !(email_recipients n).isEmpty then
    [("email", email_recipients n)] else [])
    ++ (if (requested_types notification_types).contains "sms"
      && !(sms_recipients n).isEmpty then
    [("sms", sms_recipients n)] else [])

/-- The dict _send_notice_notification_sync returns: either a per-channel
result map (possibly empty) or the error dict built by its except clause. -/
inductive SyncResult where
  | ok (results : List (String × ChannelResult)) : SyncResult
  | err (msg : String) : SyncResult
deriving Repr, DecidableEq

/-- _send_notice_notification_sync (gql_mutations.py lines 38-100).  `db`
is the outcome of Notice.objects.get: the record, or the exception the
lookup raised; that exception is the only raise of the try block and is
converted by the except clause into the error dict. -/
def send_notice_notification_sync (db : Except String NoticeRec) (env : Env)
    (notification_types : List String) : SyncResult :=
  match db with
  | Except.error e => SyncResult.err e
  | Except.ok n =>
    let channels := notice_channels n notification_types
    if channels.isEmpty then SyncResult.ok []
    else SyncResult.ok (NotificationService.send_multi_channel env channels
      n.title n.description n.priority)

/-- The check at gql_mutations.py line 136: whether the returned dict has
the key "error". -/
def resultHasErrorKey : SyncResult → Bool
  | SyncResult.ok results => (results.map Prod.fst).contains "error"
  | SyncResult.err _ => true

/-- The mapping component execute_notification_task returns
(gql_mutations.py lines 130-143): the async submission acknowledgment,
the wrapped sync result, the raw sync dict returned on the error branch,
or the error dict of the outer except clause. -/
inductive TaskResult where
  | asyncAck (task_id : String) : TaskResult
  | syncWrap (r : SyncResult) : TaskResult
  | raw (r : SyncResult) : TaskResult
  | errMap (msg : String) : TaskResult
deriving Repr, DecidableEq

/-- Whether a returned mapping is an async submission acknowledgment
carrying a task identifier. -/
def TaskResult.isAsyncAck : TaskResult → Bool
  | TaskResult.asyncAck _ => true
  | _ => false

/-- execute_notification_task (gql_mutations.py lines 115-143).
`celery_available` is the module-level CELERY_AVAILABLE flag; `delay` is
the outcome of the Celery submission (the task id, or the exception the
submission raised, which the outer except converts to the error dict). -/
def execute_notification_task (celery_available use_async : Bool)
    (delay : Except String String) (db : Except String NoticeRec) (env : Env)
    (notification_types : List String) : Bool × TaskResult :=
  if celery_available && use_async then
    match delay with
    | Except.ok task_id => (true, TaskResult.asyncAck task_id)
    | Except.error m => (false, TaskResult.errMap m)
  else
    let result := send_notice_notification_sync db env notification_types
    if resultHasErrorKey result then (false, TaskResult.raw result)
    else (true, TaskResult.syncWrap result)

/-- A fully working external world, used by concrete witnesses: the mail
transport accepts every call, the SMS gateway is configured and answers
every POST with HTTP 200 and a truthy success flag. -/
def env0 : Env :=
  { sendMail := fun _ => Except.ok (),
    fromEmail := "no-reply@openimis.org",
    smsConfig := { gateway_url := some "https://gw.example/send",
                   api_key := some "secret-key",
                   sender_id := "OpenIMIS" },
    gateway := fun _ => PostOutcome.resp 200 true }

/-- A world whose SMS gateway rejects every POST (HTTP 500), used by
concrete counterexamples. -/
def envSmsFail : Env :=
  { sendMail := fun _ => Except.ok (),
    fromEmail := "no-reply@openimis.org",
    smsConfig := { gateway_url := some "https://gw.example/send",
                   api_key := some "secret-key",
                   sender_id := "OpenIMIS" },
    gateway := fun _ => PostOutcome.resp 500 false }

/-- A world whose SMS gateway is unconfigured (both settings absent). -/
def envNoSms : Env :=
  { sendMail := fun _ => Except.ok (),
    fromEmail := "no-reply@openimis.org",
    smsConfig := { gateway_url := none, api_key := none, sender_id := "OpenIMIS" },
    gateway := fun _ => PostOutcome.resp 200 true }

/-!  Helper lemmas shared by the claim theorems. -/

/-- Every character emitted by escapeChar is distinct from the four
raw HTML-special characters it eliminates. -/
theorem escapeChar_no_special (c x : Char) (hx : x ∈ (escapeChar c).data) :
    x ≠ '<' ∧ x ≠ '>' ∧ x ≠ Char.ofNat 34 ∧ x ≠ Char.ofNat 39 := by
  unfold escapeChar at hx
  split_ifs at hx with h1 h2 h3 h4 h5
  · rw [show ("&amp;" : String).data = ['&', 'a', 'm', 'p', ';'] from rfl] at hx
    fin_cases hx <;> decide
  · rw [show ("&lt;" : String).data = ['&', 'l', 't', ';'] from rfl] at hx
    fin_cases hx <;> decide
  · rw [show ("&gt;" : String).data = ['&', 'g', 't', ';'] from rfl] at hx
    fin_cases hx <;> decide
  · rw [show ("&quot;" : String).data = ['&', 'q', 'u', 'o', 't', ';'] from rfl] at hx
    fin_cases hx <;> decide
  · rw [show ("&#x27;" : String).data = ['&', '#', 'x', '2', '7', ';'] from rfl] at hx
    fin_cases hx <;> decide
  · have hc := List.mem_singleton.mp hx
    subst hc
    exact ⟨h2, h3, h4, h5⟩

/-- The expansion of a whole character list keeps no raw special character. -/
theorem escapeList_no_special (l : List Char) (x : Char) (hx : x ∈ escapeList l) :
    x ≠ '<' ∧ x ≠ '>' ∧ x ≠ Char.ofNat 34 ∧ x ≠ Char.ofNat 39 := by
  induction l with
  | nil => cases hx
  | cons c cs ih =>
    rw [escapeList] at hx
    rcases List.mem_append.mp hx with h | h
    · exact escapeChar_no_special c x h
    · exact ih h

/-- EmailNotificationProvider.send returns True whenever it returns. -/
theorem email_send_ok (sendMail : EmailCall → Except String Unit)
    (fromEmail : String) (recips : List String) (t d p : String) (b : Bool)
    (h : EmailNotificationProvider.send sendMail fromEmail recips t d p = Except.ok b) :
    b = true := by
  unfold EmailNotificationProvider.send at h
  by_cases he : recips.isEmpty
  · rw [if_pos he] at h; cases h
  · rw [if_neg he] at h
    cases hc : sendMail
        { subject := email_subject t,
          message := plain_message t d p,
          fromEmail := fromEmail,
          recipients := recips,
          htmlMessage := html_message t d p } with
    | ok u => rw [hc] at h; cases h; rfl
    | error e => rw [hc] at h; cases h

/-- SMSNotificationProvider.send returns True whenever it returns. -/
theorem sms_send_ok (cfg : SMSConfig) (gateway : SmsPayload → PostOutcome)
    (recips : List String) (t d p : String) (b : Bool)
    (h : SMSNotificationProvider.send cfg gateway recips t d p = Except.ok b) :
    b = true := by
  unfold SMSNotificationProvider.send at h
  split_ifs at h
  cases h
  rfl

/-- send_notification returns True whenever it returns: both providers
either succeed with True or raise. -/
theorem send_notification_ok (env : Env) (ty : String) (recips : List String)
    (t d p : String) (b : Bool)
    (h : NotificationService.send_notification env ty recips t d p = Except.ok b) :
    b = true := by
  unfold NotificationService.send_notification at h
  by_cases h1 : ty = "email"
  · rw [if_pos h1] at h
    exact email_send_ok env.sendMail env.fromEmail recips t d p b h
  · rw [if_neg h1] at h
    by_cases h2 : ty = "sms"
    · rw [if_pos h2] at h
      exact sms_send_ok env.smsConfig env.gateway recips t d p b h
    · rw [if_neg h2] at h
      cases h

/-- A channel present in the map with a non-empty recipient list appears in
the aggregate with the outcome of its own attempt, whatever the other
channels do. -/
theorem mem_send_multi_channel (env : Env) (channels : List (String × List String))
    (t d p c : String) (recips : List String)
    (hmem : (c, recips) ∈ channels) (hne : recips ≠ []) :
    (c, channelOutcome env c recips t d p)
      ∈ NotificationService.send_multi_channel env channels t d p := by
  unfold NotificationService.send_multi_channel
  refine List.mem_filterMap.mpr ⟨(c, recips), hmem, ?_⟩
  simp [hne]

/-- The aggregate keeps exactly the keys of the channel map entries with
non-empty recipient lists, in order. -/
theorem send_multi_channel_keys (env : Env) (channels : List (String × List String))
    (t d p : String) :
    (NotificationService.send_multi_channel env channels t d p).map Prod.fst
      = (channels.filter (fun e => !e.2.isEmpty)).map Prod.fst := by
  induction channels with
  | nil => rfl
  | cons e es ih =>
    unfold NotificationService.send_multi_channel at ih ⊢
    by_cases he : e.2 = [] <;> simp [List.filterMap_cons, List.filter_cons, he] <;>
      simpa using ih

/-- Every aggregate entry originates from one channel map entry with a
non-empty recipient list, and records that attempt. -/
theorem mem_send_multi_channel_inv (env : Env)
    (channels : List (String × List String)) (t d p : String)
    (entry : String × ChannelResult)
    (h : entry ∈ NotificationService.send_multi_channel env channels t d p) :
    ∃ recips, (entry.1, recips) ∈ channels ∧ recips ≠ []
      ∧ entry.2 = channelOutcome env entry.1 recips t d p := by
  obtain ⟨c2, res⟩ := entry
  unfold NotificationService.send_multi_channel at h
  rcases List.mem_filterMap.mp h with ⟨⟨c, recips⟩, hmem, hf⟩
  by_cases he : recips.isEmpty
  · rw [if_pos he] at hf; cases hf
  · rw [if_neg he] at hf
    injection hf with hpair
    injection hpair with hc hres
    subst hc
    exact ⟨recips, hmem, by simpa using he, hres.symm⟩

/-- Every key of the channels dict the dispatch builds is email or sms. -/
theorem notice_channels_keys (n : NoticeRec) (nts : List String) (x : String)
    (hx : x ∈ (notice_channels n nts).map Prod.fst) : x = "email" ∨ x = "sms" := by
  unfold notice_channels at hx
  rcases List.mem_map.mp hx with ⟨e, he, hfst⟩
  rcases List.mem_append.mp he with h | h
  · split at h
    · have h2 := List.mem_singleton.mp h
      subst h2
      exact Or.inl hfst.symm
    · cases h
  · split at h
    · have h2 := List.mem_singleton.mp h
      subst h2
      exact Or.inr hfst.symm
    · cases h

/-- A list does not contain an element that is not a member. -/
theorem contains_false_of_not_mem {l : List String} {a : String} (h : a ∉ l) :
    l.contains a = false := by
  cases hc : l.contains a
  · rfl
  · exact absurd ((by
      rcases List.contains_iff_exists_mem_beq.mp hc with ⟨a2, hmem, hbeq⟩
      rw [eq_of_beq hbeq]
      exact hmem : a ∈ l)) h

/-- A per-channel result map returned by the dispatch never carries the
key "error": its keys are channel names, email or sms. -/
theorem sync_result_no_error_key (db : Except String NoticeRec) (env : Env)
    (nts : List String) (r : List (String × ChannelResult))
    (h : send_notice_notification_sync db env nts = SyncResult.ok r) :
    resultHasErrorKey (SyncResult.ok r) = false := by
  cases db with
  | error e => simp only [send_notice_notification_sync] at h; cases h
  | ok n =>
    simp only [send_notice_notification_sync] at h
    have hkeys : ∀ x, x ∈ r.map Prod.fst → x = "email" ∨ x = "sms" := by
      by_cases hc : (notice_channels n nts).isEmpty
      · rw [if_pos hc] at h
        injection h with h2
        intro x hx
        rw [← h2] at hx
        cases hx
      · rw [if_neg hc] at h
        injection h with h2
        intro x hx
        rw [← h2, send_multi_channel_keys] at hx
        rcases List.mem_map.mp hx with ⟨e, he, hfst⟩
        exact notice_channels_keys n nts x
          (List.mem_map.mpr ⟨e, (List.mem_filter.mp he).1, hfst⟩)
    unfold resultHasErrorKey
    refine contains_false_of_not_mem ?_
    intro hmem
    rcases hkeys "error" hmem with hh | hh <;> exact absurd hh (by decide)

/-!  Claim theorems. -/

/-- C1: send_multi_channel never raises: every channel of the map with a
non-empty recipient list is attempted and recorded, a raising attempt is
recorded as success false with the exception message, an unregistered
channel name yields the unsupported-type error entry, and the presence
of each entry is independent of the other channels. -/
theorem send_multi_channel_isolates_failures (env : Env)
    (channels : List (String × List String)) (t d p c : String)
    (recips : List String) (hmem : (c, recips) ∈ channels) (hne : recips ≠ []) :
    (c, channelOutcome env c recips t d p)
        ∈ NotificationService.send_multi_channel env channels t d p
    ∧ (∀ e, NotificationService.send_notification env c recips t d p = Except.error e →
        channelOutcome env c recips t d p = { success := false, error := some e })
    ∧ (c ≠ "email" → c ≠ "sms" →
        channelOutcome env c recips t d p
          = { success := false, error := some ("Unsupported notification type: " ++ c) }) := by
  refine ⟨mem_send_multi_channel env channels t d p c recips hmem hne, ?_, ?_⟩
  · intro e he
    unfold channelOutcome
    rw [he]
  · intro h1 h2
    unfold channelOutcome NotificationService.send_notification
    rw [if_neg h1, if_neg h2]

/-- C1 witness: a channel map holding only an unregistered channel name is
recorded with the unsupported-type error and blocks nothing. -/
theorem send_multi_channel_isolates_failures_witness :
    ("pigeon", channelOutcome env0 "pigeon" ["x"] "T" "D" "high")
        ∈ NotificationService.send_multi_channel env0 [("pigeon", ["x"])] "T" "D" "high"
    ∧ (∀ e, NotificationService.send_notification env0 "pigeon" ["x"] "T" "D" "high"
          = Except.error e →
        channelOutcome env0 "pigeon" ["x"] "T" "D" "high"
          = { success := false, error := some e })
    ∧ (("pigeon" : String) ≠ "email" → ("pigeon" : String) ≠ "sms" →
        channelOutcome env0 "pigeon" ["x"] "T" "D" "high"
          = { success := false,
              error := some ("Unsupported notification type: " ++ "pigeon") }) :=
  send_multi_channel_isolates_failures env0 [("pigeon", ["x"])] "T" "D" "high"
    "pigeon" ["x"] (List.mem_singleton.mpr rfl) (by decide)

/-- C2: the aggregate result of send_multi_channel holds exactly the
channels of the map with non-empty recipient lists: its key list is the
key list of the non-empty entries, and a channel name is a key of the
result exactly when the map binds it to a non-empty list. -/
theorem send_multi_channel_exact_channels (env : Env)
    (channels : List (String × List String)) (t d p : String) :
    (NotificationService.send_multi_channel env channels t d p).map Prod.fst
        = (channels.filter (fun e => !e.2.isEmpty)).map Prod.fst
    ∧ ∀ c, (c ∈ (NotificationService.send_multi_channel env channels t d p).map Prod.fst
        ↔ ∃ recips, (c, recips) ∈ channels ∧ recips ≠ []) := by
  refine ⟨send_multi_channel_keys env channels t d p, fun c => ?_⟩
  rw [send_multi_channel_keys]
  constructor
  · intro h
    rcases List.mem_map.mp h with ⟨e, he, hfst⟩
    rcases List.mem_filter.mp he with ⟨hmem, hpred⟩
    cases e with
    | mk c1 recips =>
      cases hfst
      exact ⟨recips, hmem, by simpa using hpred⟩
  · rintro ⟨recips, hmem, hne⟩
    exact List.mem_map.mpr ⟨(c, recips), List.mem_filter.mpr ⟨hmem, by simpa using hne⟩, rfl⟩

/-- C9: every entry of the aggregate result has success true exactly when
its error field is None, a false success always carries an error message,
and the entry records the outcome of the attempt of its own channel. -/
theorem send_multi_channel_entry_invariant (env : Env)
    (channels : List (String × List String)) (t d p : String)
    (entry : String × ChannelResult)
    (h : entry ∈ NotificationService.send_multi_channel env channels t d p) :
    (entry.2.success = true ↔ entry.2.error = none)
    ∧ (entry.2.success = false → ∃ m, entry.2.error = some m)
    ∧ (∃ recips, (entry.1, recips) ∈ channels ∧ recips ≠ []
        ∧ entry.2 = channelOutcome env entry.1 recips t d p) := by
  rcases mem_send_multi_channel_inv env channels t d p entry h with ⟨recips, hmem, hne, hout⟩
  have hiff : entry.2.success = true ↔ entry.2.error = none := by
    rw [hout]
    unfold channelOutcome
    cases hsend : NotificationService.send_notification env entry.1 recips t d p with
    | ok b =>
      have hb := send_notification_ok env entry.1 recips t d p b hsend
      subst hb
      simp
    | error e => simp
  refine ⟨hiff, ?_, ⟨recips, hmem, hne, hout⟩⟩
  intro hf
  cases hm : entry.2.error with
  | none =>
    have := hiff.mpr hm
    rw [hf] at this
    cases this
  | some m => exact ⟨m, rfl⟩

/-- C9 witness: the single entry of a successful email-only dispatch has
success true and error None. -/
theorem send_multi_channel_entry_invariant_witness :
    ((("email" : String), channelOutcome env0 "email" ["hf@example.org"] "T" "D" "high").2.success = true
      ↔ (("email" : String), channelOutcome env0 "email" ["hf@example.org"] "T" "D" "high").2.error = none)
    ∧ ((("email" : String), channelOutcome env0 "email" ["hf@example.org"] "T" "D" "high").2.success = false →
        ∃ m, (("email" : String), channelOutcome env0 "email" ["hf@example.org"] "T" "D" "high").2.error = some m)
    ∧ (∃ recips,
        ((("email" : String), channelOutcome env0 "email" ["hf@example.org"] "T" "D" "high").1, recips)
          ∈ [(("email" : String), ["hf@example.org"])]
        ∧ recips ≠ []
        ∧ (("email" : String), channelOutcome env0 "email" ["hf@example.org"] "T" "D" "high").2
          = channelOutcome env0
              (("email" : String), channelOutcome env0 "email" ["hf@example.org"] "T" "D" "high").1
              recips "T" "D" "high") :=
  send_multi_channel_entry_invariant env0 [("email", ["hf@example.org"])] "T" "D" "high"
    ("email", channelOutcome env0 "email" ["hf@example.org"] "T" "D" "high")
    (mem_send_multi_channel env0 [("email", ["hf@example.org"])] "T" "D" "high"
      "email" ["hf@example.org"] (List.mem_singleton.mpr rfl) (by decide))

/-- The success_count is positive exactly when some recipient had a
successful POST. -/
theorem sms_success_count_pos_iff (cfg : SMSConfig) (gateway : SmsPayload → PostOutcome)
    (recips : List String) (t d p : String) :
    sms_success_count cfg gateway recips t d p > 0
      ↔ ∃ r ∈ recips,
          postSucceeds (gateway (sms_payload cfg r (sms_message t d p))) = true := by
  unfold sms_success_count
  rw [gt_iff_lt, List.length_pos, ne_eq, List.filter_eq_nil_iff]
  push_neg
  exact Iff.rfl

/-- C3 counterexample: with a configured gateway that rejects both
recipients, the aggregate sms entry carries the re-wrapped message
"Failed to send SMS: Failed to send SMS to any recipient", not the bare
"Failed to send SMS to any recipient" the claim states. -/
theorem sms_aggregate_error_counterexample :
    NotificationService.send_multi_channel envSmsFail
        [("sms", ["+10000000001", "+10000000002"])] "T" "D" "high"
      = [("sms", ChannelResult.mk false
          (some "Failed to send SMS: Failed to send SMS to any recipient"))]
    ∧ ("Failed to send SMS: Failed to send SMS to any recipient" : String)
        ≠ "Failed to send SMS to any recipient" :=
  ⟨by decide, by decide⟩

/-- C3 amended: with a configured gateway, SMSNotificationProvider.send
returns True exactly when at least one per-recipient POST succeeded; when
none succeeded it raises "Failed to send SMS: Failed to send SMS to any
recipient" (the aggregate error wrapped once more by the outer except),
and that is the message the multi-channel aggregate records. -/
theorem sms_send_success_policy (cfg : SMSConfig) (gateway : SmsPayload → PostOutcome)
    (recips : List String) (t d p : String)
    (hurl : truthy cfg.gateway_url = true) (hkey : truthy cfg.api_key = true)
    (hne : recips ≠ []) :
    (SMSNotificationProvider.send cfg gateway recips t d p = Except.ok true
      ↔ ∃ r ∈ recips,
          postSucceeds (gateway (sms_payload cfg r (sms_message t d p))) = true)
    ∧ ((∀ r ∈ recips,
          postSucceeds (gateway (sms_payload cfg r (sms_message t d p))) = false) →
        SMSNotificationProvider.send cfg gateway recips t d p
          = Except.error ("Failed to send SMS: " ++ "Failed to send SMS to any recipient"))
    ∧ (∀ env channels, env.smsConfig = cfg → env.gateway = gateway →
        ("sms", recips) ∈ channels →
        (∀ r ∈ recips,
          postSucceeds (gateway (sms_payload cfg r (sms_message t d p))) = false) →
        ("sms", ChannelResult.mk false
            (some "Failed to send SMS: Failed to send SMS to any recipient"))
          ∈ NotificationService.send_multi_channel env channels t d p) := by
  have hcond : ¬((!truthy cfg.gateway_url || !truthy cfg.api_key) = true) := by
    simp [hurl, hkey]
  have hiff := sms_success_count_pos_iff cfg gateway recips t d p
  have herr : (∀ r ∈ recips,
        postSucceeds (gateway (sms_payload cfg r (sms_message t d p))) = false) →
      SMSNotificationProvider.send cfg gateway recips t d p
        = Except.error ("Failed to send SMS: " ++ "Failed to send SMS to any recipient") := by
    intro hall
    have hcnt : ¬(sms_success_count cfg gateway recips t d p > 0) := by
      intro hpos
      rcases hiff.mp hpos with ⟨r, hr, hp⟩
      rw [hall r hr] at hp
      cases hp
    unfold SMSNotificationProvider.send
    rw [if_neg hcond, if_neg hcnt]
  refine ⟨?_, herr, ?_⟩
  · constructor
    · intro hok
      by_cases hcnt : sms_success_count cfg gateway recips t d p > 0
      · exact hiff.mp hcnt
      · unfold SMSNotificationProvider.send at hok
        rw [if_neg hcond, if_neg hcnt] at hok
        cases hok
    · intro hex
      unfold SMSNotificationProvider.send
      rw [if_neg hcond, if_pos (hiff.mpr hex)]
  · intro env channels hcfg2 hgw2 hmem hall
    have hout : channelOutcome env "sms" recips t d p
        = { success := false,
            error := some "Failed to send SMS: Failed to send SMS to any recipient" } := by
      unfold channelOutcome NotificationService.send_notification
      rw [if_neg (by decide : ¬(("sms" : String) = "email")), if_pos rfl, hcfg2, hgw2,
        herr hall]
      rfl
    have hm := mem_send_multi_channel env channels t d p "sms" recips hmem hne
    rw [hout] at hm
    exact hm

/-- C3 witness: the amended statement at one concrete configured world. -/
theorem sms_send_success_policy_witness :
    (SMSNotificationProvider.send envSmsFail.smsConfig envSmsFail.gateway
        ["+10000000001"] "T" "D" "high" = Except.ok true
      ↔ ∃ r ∈ (["+10000000001"] : List String),
          postSucceeds (envSmsFail.gateway
            (sms_payload envSmsFail.smsConfig r (sms_message "T" "D" "high"))) = true)
    ∧ ((∀ r ∈ (["+10000000001"] : List String),
          postSucceeds (envSmsFail.gateway
            (sms_payload envSmsFail.smsConfig r (sms_message "T" "D" "high"))) = false) →
        SMSNotificationProvider.send envSmsFail.smsConfig envSmsFail.gateway
            ["+10000000001"] "T" "D" "high"
          = Except.error ("Failed to send SMS: " ++ "Failed to send SMS to any recipient"))
    ∧ (∀ env channels, env.smsConfig = envSmsFail.smsConfig →
        env.gateway = envSmsFail.gateway →
        ("sms", (["+10000000001"] : List String)) ∈ channels →
        (∀ r ∈ (["+10000000001"] : List String),
          postSucceeds (envSmsFail.gateway
            (sms_payload envSmsFail.smsConfig r (sms_message "T" "D" "high"))) = false) →
        ("sms", ChannelResult.mk false
            (some "Failed to send SMS: Failed to send SMS to any recipient"))
          ∈ NotificationService.send_multi_channel env channels "T" "D" "high") :=
  sms_send_success_policy envSmsFail.smsConfig envSmsFail.gateway ["+10000000001"]
    "T" "D" "high" (by decide) (by decide) (by decide)

/-- C4: with the gateway URL or the API key unconfigured, the SMS provider
fails at once with "SMS provider not configured": the outcome does not
depend on the HTTP gateway at all (no call is attempted), and the
multi-channel aggregate records exactly that message for the sms
channel. -/
theorem sms_unconfigured_fails_immediately (env : Env) (recips : List String)
    (t d p : String) (channels : List (String × List String))
    (hcfg : truthy env.smsConfig.gateway_url = false
      ∨ truthy env.smsConfig.api_key = false) :
    SMSNotificationProvider.send env.smsConfig env.gateway recips t d p
        = Except.error "SMS provider not configured"
    ∧ (∀ gw gw2 : SmsPayload → PostOutcome,
        SMSNotificationProvider.send env.smsConfig gw recips t d p
          = SMSNotificationProvider.send env.smsConfig gw2 recips t d p)
    ∧ (("sms", recips) ∈ channels → recips ≠ [] →
        ("sms", ChannelResult.mk false (some "SMS provider not configured"))
          ∈ NotificationService.send_multi_channel env channels t d p) := by
  have hcond : (!truthy env.smsConfig.gateway_url
      || !truthy env.smsConfig.api_key) = true := by
    rcases hcfg with h | h <;> simp [h]
  have hsend : ∀ gw : SmsPayload → PostOutcome,
      SMSNotificationProvider.send env.smsConfig gw recips t d p
        = Except.error "SMS provider not configured" := by
    intro gw
    unfold SMSNotificationProvider.send
    rw [if_pos hcond]
  refine ⟨hsend env.gateway, fun gw gw2 => by rw [hsend gw, hsend gw2], ?_⟩
  intro hmem hne
  have hout : channelOutcome env "sms" recips t d p
      = { success := false, error := some "SMS provider not configured" } := by
    unfold channelOutcome NotificationService.send_notification
    rw [if_neg (by decide : ¬(("sms" : String) = "email")), if_pos rfl, hsend env.gateway]
  have hm := mem_send_multi_channel env channels t d p "sms" recips hmem hne
  rw [hout] at hm
  exact hm

/-- C4 witness: the unconfigured world fails fast on one concrete call. -/
theorem sms_unconfigured_fails_immediately_witness :
    SMSNotificationProvider.send envNoSms.smsConfig envNoSms.gateway
        ["+10000000001"] "T" "D" "high"
        = Except.error "SMS provider not configured"
    ∧ (∀ gw gw2 : SmsPayload → PostOutcome,
        SMSNotificationProvider.send envNoSms.smsConfig gw ["+10000000001"] "T" "D" "high"
          = SMSNotificationProvider.send envNoSms.smsConfig gw2 ["+10000000001"] "T" "D" "high")
    ∧ (("sms", (["+10000000001"] : List String)) ∈ [(("sms" : String), ["+10000000001"])] →
        (["+10000000001"] : List String) ≠ [] →
        ("sms", ChannelResult.mk false (some "SMS provider not configured"))
          ∈ NotificationService.send_multi_channel envNoSms
              [("sms", ["+10000000001"])] "T" "D" "high") :=
  sms_unconfigured_fails_immediately envNoSms ["+10000000001"] "T" "D" "high"
    [("sms", ["+10000000001"])] (Or.inl (by decide))

/-- C5: with no Celery backend available, execute_notification_task runs
the dispatch inline and returns the structured pair built from the direct
output of _send_notice_notification_sync, never an async task
acknowledgment; and a failing async submission is likewise returned as a
structured (False, error dict) pair instead of raising. -/
theorem execute_notification_task_sync_path (db : Except String NoticeRec) (env : Env)
    (nts : List String) (use_async : Bool) (delay : Except String String) :
    (∀ r, send_notice_notification_sync db env nts = SyncResult.ok r →
        execute_notification_task false use_async delay db env nts
          = (true, TaskResult.syncWrap (SyncResult.ok r)))
    ∧ (∀ m, send_notice_notification_sync db env nts = SyncResult.err m →
        execute_notification_task false use_async delay db env nts
          = (false, TaskResult.raw (SyncResult.err m)))
    ∧ (execute_notification_task false use_async delay db env nts).2.isAsyncAck = false
    ∧ (∀ m, execute_notification_task true true (Except.error m) db env nts
        = (false, TaskResult.errMap m)) := by
  have hfalse : ¬((false && use_async) = true) := by simp
  refine ⟨?_, ?_, ?_, fun m => rfl⟩
  · intro r hr
    unfold execute_notification_task
    rw [if_neg hfalse, hr]
    have hnoerr := sync_result_no_error_key db env nts r hr
    rw [if_neg (by simp [hnoerr])]
  · intro m hm
    unfold execute_notification_task
    rw [if_neg hfalse, hm]
    rfl
  · unfold execute_notification_task
    rw [if_neg hfalse]
    by_cases hc : resultHasErrorKey (send_notice_notification_sync db env nts) = true
    · rw [if_pos hc]
      rfl
    · rw [if_neg hc]
      rfl

/-- C10: on the synchronous path (Celery unavailable or async declined)
the success flag of execute_notification_task is True exactly when the
dispatch returned a per-channel result map (however many of its entries
failed, and also when it is empty), and False exactly when the dispatch
itself raised and returned the error dict. -/
theorem execute_notification_task_success_iff (celery use_async : Bool)
    (delay : Except String String) (db : Except String NoticeRec) (env : Env)
    (nts : List String) (h : celery = false ∨ use_async = false) :
    ((execute_notification_task celery use_async delay db env nts).1 = true
      ↔ ∃ r, send_notice_notification_sync db env nts = SyncResult.ok r)
    ∧ ((execute_notification_task celery use_async delay db env nts).1 = false
      ↔ ∃ m, send_notice_notification_sync db env nts = SyncResult.err m) := by
  have hand : ¬((celery && use_async) = true) := by
    rcases h with h | h <;> simp [h]
  cases hs : send_notice_notification_sync db env nts with
  | ok r =>
    have hnoerr := sync_result_no_error_key db env nts r hs
    have hexec : execute_notification_task celery use_async delay db env nts
        = (true, TaskResult.syncWrap (SyncResult.ok r)) := by
      unfold execute_notification_task
      rw [if_neg hand, hs, if_neg (by simp [hnoerr])]
    rw [hexec]
    refine ⟨⟨fun _ => ⟨r, rfl⟩, fun _ => rfl⟩,
      ⟨fun h1 => Bool.noConfusion h1, ?_⟩⟩
    rintro ⟨m, hm⟩
    cases hm
  | err m =>
    have hexec : execute_notification_task celery use_async delay db env nts
        = (false, TaskResult.raw (SyncResult.err m)) := by
      unfold execute_notification_task
      rw [if_neg hand, hs]
      rfl
    rw [hexec]
    refine ⟨⟨fun h1 => Bool.noConfusion h1, ?_⟩,
      ⟨fun _ => ⟨m, rfl⟩, fun _ => rfl⟩⟩
    rintro ⟨r, hr⟩
    cases hr

/-- C10 witness: a failing notice lookup on the synchronous path. -/
theorem execute_notification_task_success_iff_witness :
    ((execute_notification_task false true (Except.ok "tid")
        (Except.error "Notice matching query does not exist.") env0 ["email"]).1 = true
      ↔ ∃ r, send_notice_notification_sync
          (Except.error "Notice matching query does not exist.") env0 ["email"]
            = SyncResult.ok r)
    ∧ ((execute_notification_task false true (Except.ok "tid")
        (Except.error "Notice matching query does not exist.") env0 ["email"]).1 = false
      ↔ ∃ m, send_notice_notification_sync
          (Except.error "Notice matching query does not exist.") env0 ["email"]
            = SyncResult.err m) :=
  execute_notification_task_success_iff false true (Except.ok "tid")
    (Except.error "Notice matching query does not exist.") env0 ["email"] (Or.inl rfl)

/-- C6: the HTML body is the fixed template interpolated with the escaped
title, escaped description and escaped priority (escaped text carries no
raw angle bracket or quote character), and the plaintext fallback body
contains the title, the description and the priority. -/
theorem email_html_escapes_inputs (t d p : String) :
    html_message t d p
        = htmlTemplateFilled (escape t) (escape d) (escape p) (priority_color p)
    ∧ (∀ s x, x ∈ (escape s).data →
        x ≠ '<' ∧ x ≠ '>' ∧ x ≠ Char.ofNat 34 ∧ x ≠ Char.ofNat 39)
    ∧ plain_message t d p
        = "Title: " ++ (t ++ ("\n\nDescription: " ++ (d ++ ("\n\nPriority: " ++ p))))
    ∧ (∃ s1 s2 s3, plain_message t d p = s1 ++ (t ++ (s2 ++ (d ++ (s3 ++ p))))
        ∧ s1 = "Title: " ∧ s2 = "\n\nDescription: " ∧ s3 = "\n\nPriority: ") :=
  ⟨rfl, fun s x hx => escapeList_no_special s.data x hx, rfl,
    ⟨"Title: ", "\n\nDescription: ", "\n\nPriority: ", rfl, rfl, rfl, rfl⟩⟩

/-- C7: the SMS text is the bracketed upper-cased priority, the title and
the first 100 characters of the description, with the ellipsis appended
exactly when the description is longer than 100 characters, and that text
is the message field of every posted payload. -/
theorem sms_message_format (t d p : String) :
    sms_message t d p
        = "[" ++ pyUpper p ++ "] " ++ t ++ ": " ++ String.mk (d.data.take 100)
          ++ (if d.length > 100 then "..." else "")
    ∧ (d.length ≤ 100 →
        sms_message t d p = "[" ++ pyUpper p ++ "] " ++ t ++ ": " ++ d)
    ∧ (d.length > 100 →
        sms_message t d p
          = "[" ++ pyUpper p ++ "] " ++ t ++ ": " ++ String.mk (d.data.take 100) ++ "...")
    ∧ (∀ cfg r, (sms_payload cfg r (sms_message t d p)).message = sms_message t d p) := by
  refine ⟨rfl, ?_, ?_, fun cfg r => rfl⟩
  · intro hle
    unfold sms_message
    rw [if_neg (by omega : ¬(d.length > 100)),
      List.take_of_length_le (hle : d.data.length ≤ 100), String.append_empty]
  · intro hgt
    unfold sms_message
    rw [if_pos hgt]

/-- C8: the priority color lookup is over the lower-cased priority; the
five known keys map to their colors and every other priority string falls
back to the default blue, and an unmatched priority still lets the email
send succeed when the transport accepts the call and recipients exist. -/
theorem priority_color_fallback (p : String)
    (h : pyLower p ∉ (["high", "medium", "low", "urgent", "normal"] : List String)) :
    priority_color p = "#3498db"
    ∧ priority_color p = priorityColorKey (pyLower p)
    ∧ priorityColorKey "high" = "#e74c3c"
    ∧ priorityColorKey "urgent" = "#c0392b"
    ∧ priorityColorKey "medium" = "#f39c12"
    ∧ priorityColorKey "low" = "#27ae60"
    ∧ priorityColorKey "normal" = "#3498db"
    ∧ (∀ (sendMail : EmailCall → Except String Unit) (fromEmail : String)
        (recips : List String) (t d : String),
        (∀ call, sendMail call = Except.ok ()) → recips ≠ [] →
        EmailNotificationProvider.send sendMail fromEmail recips t d p
          = Except.ok true) := by
  have h1 : pyLower p ≠ "high" := fun hh => h (by rw [hh]; decide)
  have h2 : pyLower p ≠ "medium" := fun hh => h (by rw [hh]; decide)
  have h3 : pyLower p ≠ "low" := fun hh => h (by rw [hh]; decide)
  have h4 : pyLower p ≠ "urgent" := fun hh => h (by rw [hh]; decide)
  have h5 : pyLower p ≠ "normal" := fun hh => h (by rw [hh]; decide)
  refine ⟨?_, rfl, by decide, by decide, by decide, by decide, by decide, ?_⟩
  · simp [priority_color, priorityColorKey, priority_colors, List.lookup,
      beq_eq_false_iff_ne.mpr h1, beq_eq_false_iff_ne.mpr h2,
      beq_eq_false_iff_ne.mpr h3, beq_eq_false_iff_ne.mpr h4,
      beq_eq_false_iff_ne.mpr h5]
  · intro sendMail fromEmail recips t d hok hne2
    unfold EmailNotificationProvider.send
    rw [if_neg (by simpa using hne2), hok]

/-- C8 witness: the fallback at the unmatched priority "critical". -/
theorem priority_color_fallback_witness :
    priority_color "critical" = "#3498db"
    ∧ priority_color "critical" = priorityColorKey (pyLower "critical")
    ∧ priorityColorKey "high" = "#e74c3c"
    ∧ priorityColorKey "urgent" = "#c0392b"
    ∧ priorityColorKey "medium" = "#f39c12"
    ∧ priorityColorKey "low" = "#27ae60"
    ∧ priorityColorKey "normal" = "#3498db"
    ∧ (∀ (sendMail : EmailCall → Except String Unit) (fromEmail : String)
        (recips : List String) (t d : String),
        (∀ call, sendMail call = Except.ok ()) → recips ≠ [] →
        EmailNotificationProvider.send sendMail fromEmail recips t d "critical"
          = Except.ok true) :=
  priority_color_fallback "critical" (by decide)
